import Mathlib

/-!
Shallow embedding of the receipt-admission core of `indexer-service-rs`:
the signature-verification engine (`native/src/signature_verification.rs`)
and the TAP receipt manager (`service/src/tap_manager.rs`).

External cryptographic primitives (secp256k1 recovery/verification,
keccak-256) and external I/O collaborators (eligibility monitors, the
receipt store, serde serialization) are library code outside this
repository; they are modelled as parameters (fields of `CryptoModel`
and `TapEnv`).  The repository's own control flow is translated
line-by-line.  Sites where the Rust calls `unwrap()` are modelled with
`Option`: a `none` result of the embedded function models a panic.
Bytes are natural numbers; the Rust code only ever produces values
below 256, and theorems that depend on the range state it explicitly.
-/

/-- A keccak-256 digest: 32 bytes (`H256` / `to_fixed_bytes` in the source). -/
abbrev Keccak256 := {l : List Nat // l.length = 32}

/-- `secp256k1::Message`: a 32-byte message digest. -/
abbrev Message := {l : List Nat // l.length = 32}

/-- `secp256k1::Message::from_slice`: succeeds exactly on 32-byte slices. -/
def Message.from_slice (l : List Nat) : Option Message :=
  if h : l.length = 32 then some ⟨l, h⟩ else none

/-- Abstract carrier for `secp256k1::PublicKey` (opaque to this core). -/
structure PublicKey where
  raw : Nat
deriving DecidableEq

/-- `secp256k1::ecdsa::RecoverableSignature`: an (r, s, recovery-id) triple. -/
structure RecoverableSignature where
  r : Nat
  s : Nat
  recovery_id : Nat
deriving DecidableEq

/-- `secp256k1::ecdsa::Signature`: the non-recoverable standard form. -/
structure StandardSignature where
  r : Nat
  s : Nat
deriving DecidableEq

/-- `RecoverableSignature::to_standard`: drop the recovery id. -/
def RecoverableSignature.to_standard (sig : RecoverableSignature) : StandardSignature :=
  ⟨sig.r, sig.s⟩

/-- The external cryptographic primitives used by the verifier, as an
abstract model: `keccak` (always 32 bytes, by type), ECDSA public-key
recovery, standard ECDSA verification, and uncompressed key
serialization (always 65 bytes, by type; the first byte is the format
tag checked by the source's debug assertion). -/
structure CryptoModel where
  keccak : List Nat → Keccak256
  secpRecover : Message → RecoverableSignature → Option PublicKey
  secpVerify : Message → StandardSignature → PublicKey → Bool
  serializeUncompressed : PublicKey → {l : List Nat // l.length = 65}

/-- The signer state of a `SignatureVerifier` (`enum Signer` in the source):
either the cached public key, or only the expected address (20 bytes). -/
inductive Signer where
  | publicKey (pk : PublicKey)
  | address (addr : List Nat)
deriving DecidableEq

/-- The digest computed at the top of `SignatureVerifier::verify`:
keccak-256 of the message, repackaged as a `secp256k1::Message`. -/
def hashedMessage (C : CryptoModel) (message : List Nat) : Message :=
  ⟨(C.keccak message).val, (C.keccak message).property⟩

/-- The candidate address derived from a recovered key in the
`Signer::Address` branch: serialize uncompressed (65 bytes), drop the
1-byte format tag, keccak-256 the remaining 64 bytes, keep the last
20 bytes (`pk_hash[12..]`). -/
def deriveAddress (C : CryptoModel) (pk : PublicKey) : List Nat :=
  ((C.keccak ((C.serializeUncompressed pk).val.drop 1)).val.drop 12)

/-- The error string of the failed-recovery branch. -/
def recoverFailureMsg : String := "Failed to recover signature"

/-- Body of `SignatureVerifier::verify` after the digest `unwrap`:
the match on the current `Signer` snapshot.  Returns the `Result` and
the signer state after the call (the source mutates it in place via
`ArcSwap::store`). -/
def verifyBody (C : CryptoModel) (st : Signer) (message : Message)
    (signature : RecoverableSignature) : Except String Bool × Signer :=
  match st with
  | .publicKey signer =>
      (.ok (C.secpVerify message signature.to_standard signer), st)
  | .address addr =>
      match C.secpRecover message signature with
      | none => (.error recoverFailureMsg, st)
      | some recovered_signer =>
          let equal := deriveAddress C recovered_signer = addr
          if equal then
            (.ok true, .publicKey recovered_signer)
          else
            (.ok equal, st)

/-- `SignatureVerifier::verify`.  The source first builds
`Message::from_slice(&keccak(message).to_fixed_bytes()).unwrap()`;
a failing `unwrap` is modelled as `none`. -/
def SignatureVerifier.verify (C : CryptoModel) (st : Signer) (message : List Nat)
    (signature : RecoverableSignature) : Option (Except String Bool × Signer) :=
  (Message.from_slice (C.keccak message).val).map
    (fun m => verifyBody C st m signature)

/-! ## TapManager (`service/src/tap_manager.rs`) -/

deriving instance DecidableEq for Except

/-- The receipt message of a `SignedReceipt`
(`tap_core::tap_receipt::Receipt`): a 20-byte allocation address,
`nonce: u64`, `timestamp_ns: u64`, `value: u128`. -/
structure Receipt where
  allocation_id : List Nat
  nonce : Nat
  timestamp_ns : Nat
  value : Nat
deriving DecidableEq

/-- `tap_core::tap_manager::SignedReceipt`: a receipt message plus a
recoverable signature. -/
structure SignedReceipt where
  message : Receipt
  signature : RecoverableSignature
deriving DecidableEq

/-- `alloy_sol_types::Eip712Domain` as deployed: name, version,
chain id, verifying contract. -/
structure Eip712Domain where
  name : List Char
  version : List Char
  chain_id : Nat
  verifying_contract : List Nat
deriving DecidableEq

/-- Abstract carrier for `tap_core`'s recovery error type. -/
structure TapError where
  code : Nat
deriving DecidableEq

/-- Abstract carrier for `serde_json::Error`. -/
structure SerdeError where
  code : Nat
deriving DecidableEq

/-- Abstract carrier for `sqlx::Error` (constraint violation,
connection loss, ...). -/
structure DbError where
  code : Nat
deriving DecidableEq

/-- Abstract carrier for the `serde_json::Value` the receipt is
serialized into (opaque to this core). -/
structure Json where
  raw : Nat
deriving DecidableEq

/-- The two `format!` templates used to build `anyhow::Error::msg`
errors in `verify_and_store_receipt`. -/
inductive MsgTemplate where
  | allocationNotEligible
  | senderNotEligible
deriving DecidableEq

/-- The dynamic payload wrapped inside `anyhow::Error`.  `anyhow`
preserves the wrapped value's concrete type (recoverable via
`downcast_ref`), so the payloads of the four failure paths are modelled
as distinct constructors: a formatted message string (with its template
and argument), a `tap_core` recovery error, a `serde_json` error, or a
`sqlx` error. -/
inductive AnyhowPayload where
  | msg (template : MsgTemplate) (arg : List Nat)
  | tapError (e : TapError)
  | serdeError (e : SerdeError)
  | sqlxError (e : DbError)
deriving DecidableEq

/-- `QueryError` as constructed in `tap_manager.rs`: every failure path
uses the `Other` variant around an `anyhow::Error`. -/
inductive QueryError where
  | other (e : AnyhowPayload)
deriving DecidableEq

/-- The row inserted into `scalar_tap_receipts`: the allocation id as a
Rust string (list of characters), the timestamp as an exact
arbitrary-precision value (`BigDecimal::from(u64)` is exact, so a `Nat`),
and the JSON-serialized receipt. -/
structure ReceiptRow where
  allocation_id : List Char
  timestamp_ns : Nat
  receipt : Json
deriving DecidableEq

/-- Modelled from the spec: the receipt store's change-notification
payload `{id, allocation_id, timestamp_ns}`.  The trigger that emits it
lives in this repository's database migrations, which are not part of
the source tree; the spec says a successful insert emits exactly one
such notification. -/
structure Notification where
  id : Nat
  allocation_id : List Char
  timestamp_ns : Nat
deriving DecidableEq

/-- Observable events of one `verify_and_store_receipt` call, in
program order: monitor lookups, the signer-recovery attempt, the
successful row insert, and the emitted notification. -/
inductive TapEvent where
  | checkedAllocation (allocation_id : List Nat) (eligible : Bool)
  | attemptedRecovery (outcome : Except TapError (List Nat))
  | checkedSender (addr : List Nat) (eligible : Bool)
  | insertedRow (row : ReceiptRow)
  | emittedNotification (n : Notification)
deriving DecidableEq

/-- The external collaborators of `TapManager`, as an abstract model:
the two eligibility monitors, `tap_core`'s `recover_signer` (returning
the signer's 20-byte address), `serde_json::to_value`, the database
insert (`none` = success, `some e` = `sqlx` failure), and the row id the
store assigns (carried by the notification payload). -/
structure TapEnv where
  is_allocation_eligible : List Nat → Bool
  is_sender_eligible : List Nat → Bool
  recover_signer : SignedReceipt → Eip712Domain → Except TapError (List Nat)
  serde_to_value : SignedReceipt → Except SerdeError Json
  db_insert : ReceiptRow → Option DbError
  next_row_id : Nat

/-- Result and events of one `verify_and_store_receipt` call. -/
structure TapOutcome where
  result : Except QueryError Unit
  events : List TapEvent
deriving DecidableEq

/-- Rust's `str::strip_prefix`: remove a leading pattern, or `None`. -/
def stripLeading (s p : List Char) : Option (List Char) :=
  if s.take p.length = p then some (s.drop p.length) else none

/-- The character pattern stripped from the formatted allocation id. -/
def rust0x : List Char := ['0', 'x']

/-- One lowercase hexadecimal digit (`0`-`9`, `a`-`f`). -/
def hexDigit (n : Nat) : Char :=
  if n < 10 then Char.ofNat (48 + n) else Char.ofNat (87 + n)

/-- The two lowercase hex characters of one byte. -/
def byteToHex (b : Nat) : List Char := [hexDigit (b / 16), hexDigit (b % 16)]

/-- Lowercase hexadecimal rendering of a byte string, no prefix. -/
def toLowerHex (bs : List Nat) : List Char := (bs.map byteToHex).flatten

/-- `format!("{:?}", allocation_id)` for an `alloy_primitives::Address`:
the library's `Debug` impl renders `0x` followed by the 40 lowercase hex
characters of the 20 bytes (no EIP-55 checksum). -/
def addressDebugFormat (a : List Nat) : List Char := '0' :: 'x' :: toLowerHex a

/-- The notification emitted by a successful insert.  Modelled from the
spec: payload `{id, allocation_id, timestamp_ns}` copied from the
inserted row, with the store-assigned row id. -/
def notificationOf (env : TapEnv) (row : ReceiptRow) : Notification :=
  ⟨env.next_row_id, row.allocation_id, row.timestamp_ns⟩

/-- `TapManager::verify_and_store_receipt`.  Checks allocation
eligibility, recovers the signer against the domain separator, checks
sender eligibility, then inserts one row; every failure is returned as
`QueryError::Other` around the failing step's payload.  The
`strip_prefix("0x").unwrap()` on the Debug-formatted allocation id is
modelled with `Option`: `none` models a panic. -/
def TapManager.verify_and_store_receipt (env : TapEnv) (domain_separator : Eip712Domain)
    (receipt : SignedReceipt) : Option TapOutcome :=
  let allocation_id := receipt.message.allocation_id
  if env.is_allocation_eligible allocation_id = false then
    some ⟨.error (.other (.msg .allocationNotEligible allocation_id)),
          [.checkedAllocation allocation_id false]⟩
  else
    match env.recover_signer receipt domain_separator with
    | .error e =>
        some ⟨.error (.other (.tapError e)),
              [.checkedAllocation allocation_id true, .attemptedRecovery (.error e)]⟩
    | .ok receipt_signer =>
        if env.is_sender_eligible receipt_signer = false then
          some ⟨.error (.other (.msg .senderNotEligible receipt_signer)),
                [.checkedAllocation allocation_id true,
                 .attemptedRecovery (.ok receipt_signer),
                 .checkedSender receipt_signer false]⟩
        else
          (stripLeading (addressDebugFormat allocation_id) rust0x).map
            (fun hex =>
              match env.serde_to_value receipt with
              | .error e =>
                  ⟨.error (.other (.serdeError e)),
                   [.checkedAllocation allocation_id true,
                    .attemptedRecovery (.ok receipt_signer),
                    .checkedSender receipt_signer true]⟩
              | .ok value =>
                  let row : ReceiptRow := ⟨hex, receipt.message.timestamp_ns, value⟩
                  match env.db_insert row with
                  | some e =>
                      ⟨.error (.other (.sqlxError e)),
                       [.checkedAllocation allocation_id true,
                        .attemptedRecovery (.ok receipt_signer),
                        .checkedSender receipt_signer true]⟩
                  | none =>
                      ⟨.ok (),
                       [.checkedAllocation allocation_id true,
                        .attemptedRecovery (.ok receipt_signer),
                        .checkedSender receipt_signer true,
                        .insertedRow row,
                        .emittedNotification (notificationOf env row)]⟩)

/-- The rows a call stored (from its event trace). -/
def TapEvent.rowOf : TapEvent → Option ReceiptRow
  | .insertedRow r => some r
  | _ => none

/-- The notifications a call emitted (from its event trace). -/
def TapEvent.noteOf : TapEvent → Option Notification
  | .emittedNotification n => some n
  | _ => none

/-- Rows stored by one call. -/
def storedRows (o : TapOutcome) : List ReceiptRow := o.events.filterMap TapEvent.rowOf

/-- Notifications emitted by one call. -/
def notificationsOf (o : TapOutcome) : List Notification := o.events.filterMap TapEvent.noteOf

/-- Whether an error is the persistence-failure kind: the `anyhow`
payload downcasts to `sqlx::Error`. -/
def isPersistenceError : QueryError → Bool
  | .other (.sqlxError _) => true
  | _ => false

/-! ## Hex-rendering helpers -/

/-- A lowercase hexadecimal character: `0`-`9` or `a`-`f`. -/
def isLowerHexChar (c : Char) : Bool :=
  decide ((48 ≤ c.toNat ∧ c.toNat ≤ 57) ∨ (97 ≤ c.toNat ∧ c.toNat ≤ 102))

/-! ## Concrete models used by the witness theorems -/

/-- A concrete keccak model: every input hashes to 32 zero bytes. -/
def keccakW : List Nat → Keccak256 := fun _ => ⟨List.replicate 32 0, by simp⟩

/-- A concrete serializer model: every key serializes to 65 bytes. -/
def serializeW : PublicKey → {l : List Nat // l.length = 65} :=
  fun _ => ⟨List.replicate 65 4, by simp⟩

/-- The concrete public key used by witnesses. -/
def pkW : PublicKey := ⟨1⟩

/-- A concrete crypto model in which recovery yields `pkW` and standard
verification succeeds. -/
def cryptoOkW : CryptoModel :=
  { keccak := keccakW
    secpRecover := fun _ _ => some pkW
    secpVerify := fun _ _ _ => true
    serializeUncompressed := serializeW }

/-- A concrete crypto model in which recovery fails and standard
verification fails (a malformed signature). -/
def cryptoFailW : CryptoModel :=
  { keccak := keccakW
    secpRecover := fun _ _ => none
    secpVerify := fun _ _ _ => false
    serializeUncompressed := serializeW }

/-- The address derived from `pkW` under `cryptoOkW` (20 zero bytes). -/
def addrW : List Nat := List.replicate 20 0

/-- An address that does not match `deriveAddress cryptoOkW pkW`. -/
def addrBad : List Nat := List.replicate 20 1

/-- A concrete recoverable signature. -/
def sigW : RecoverableSignature := ⟨1, 2, 0⟩

/-! ## Concrete TapManager models used by the witness theorems -/

/-- The concrete recovered sender address used by witnesses. -/
def sW : List Nat := List.replicate 20 2

/-- The concrete JSON value the witness serializer returns. -/
def jsonW : Json := ⟨9⟩

/-- The concrete signed receipt used by witnesses: allocation id
`0xdede...de` (20 bytes), nonce 0, timestamp 5, value 7. -/
def receiptW : SignedReceipt := ⟨⟨List.replicate 20 222, 0, 5, 7⟩, sigW⟩

/-- The concrete domain separator used by witnesses. -/
def domW : Eip712Domain := ⟨['T', 'A', 'P'], ['1'], 1, List.replicate 20 17⟩

/-- A fully successful environment: both monitors eligible, recovery
yields `sW`, serialization yields `jsonW`, insert succeeds. -/
def envAllOk : TapEnv :=
  { is_allocation_eligible := fun _ => true
    is_sender_eligible := fun _ => true
    recover_signer := fun _ _ => .ok sW
    serde_to_value := fun _ => .ok jsonW
    db_insert := fun _ => none
    next_row_id := 0 }

/-- Like `envAllOk` but the allocation monitor reports ineligible. -/
def envAllocBad : TapEnv :=
  { envAllOk with is_allocation_eligible := fun _ => false }

/-- Like `envAllOk` but the database insert fails. -/
def envDbFail : TapEnv :=
  { envAllOk with db_insert := fun _ => some ⟨3⟩ }

/-- The row stored for `receiptW` under `envAllOk`. -/
def rowW : ReceiptRow := ⟨toLowerHex (List.replicate 20 222), 5, jsonW⟩

/-- The outcome of `verify_and_store_receipt envAllOk domW receiptW`. -/
def outOkW : TapOutcome :=
  ⟨.ok (), [.checkedAllocation (List.replicate 20 222) true,
            .attemptedRecovery (.ok sW),
            .checkedSender sW true,
            .insertedRow rowW,
            .emittedNotification ⟨0, rowW.allocation_id, 5⟩]⟩

/-- The outcome of `verify_and_store_receipt envAllocBad domW receiptW`. -/
def outAllocBadW : TapOutcome :=
  ⟨.error (.other (.msg .allocationNotEligible (List.replicate 20 222))),
   [.checkedAllocation (List.replicate 20 222) false]⟩

/-- The outcome of `verify_and_store_receipt envDbFail domW receiptW`. -/
def outDbFailW : TapOutcome :=
  ⟨.error (.other (.sqlxError ⟨3⟩)),
   [.checkedAllocation (List.replicate 20 222) true,
    .attemptedRecovery (.ok sW),
    .checkedSender sW true]⟩

theorem from_slice_keccak (C : CryptoModel) (message : List Nat) :
    Message.from_slice (C.keccak message).val = some (hashedMessage C message) := by
  simp [Message.from_slice, (C.keccak message).property, hashedMessage]

theorem verify_eq_body (C : CryptoModel) (st : Signer) (message : List Nat)
    (signature : RecoverableSignature) :
    SignatureVerifier.verify C st message signature =
      some (verifyBody C st (hashedMessage C message) signature) := by
  simp [SignatureVerifier.verify, from_slice_keccak]

theorem strip_debug (a : List Nat) :
    stripLeading (addressDebugFormat a) rust0x = some (toLowerHex a) := by
  simp [stripLeading, addressDebugFormat, rust0x, List.take]

theorem hexDigit_lowerHex (n : Nat) (h : n < 16) : isLowerHexChar (hexDigit n) = true := by
  interval_cases n <;> decide

theorem toLowerHex_length (bs : List Nat) : (toLowerHex bs).length = 2 * bs.length := by
  induction bs with
  | nil => rfl
  | cons b bs ih =>
      simp only [toLowerHex, List.map_cons, List.flatten_cons, List.length_append,
        List.length_cons] at ih ⊢
      simp [byteToHex, ih]
      omega

theorem toLowerHex_chars (bs : List Nat) (hb : ∀ b ∈ bs, b < 256) :
    ∀ c ∈ toLowerHex bs, isLowerHexChar c = true := by
  intro c hc
  simp only [toLowerHex, List.mem_flatten, List.mem_map] at hc
  obtain ⟨l, ⟨b, hbmem, rfl⟩, hcl⟩ := hc
  have hblt : b < 256 := hb b hbmem
  simp only [byteToHex, List.mem_cons, List.mem_singleton] at hcl
  rcases hcl with rfl | rfl | h
  · exact hexDigit_lowerHex (b / 16) (by omega)
  · exact hexDigit_lowerHex (b % 16) (by omega)
  · cases h

/-! ## Path lemmas for `verify_and_store_receipt` -/

theorem tap_alloc_ineligible (env : TapEnv) (ds : Eip712Domain) (receipt : SignedReceipt)
    (h1 : env.is_allocation_eligible receipt.message.allocation_id = false) :
    TapManager.verify_and_store_receipt env ds receipt =
      some ⟨.error (.other (.msg .allocationNotEligible receipt.message.allocation_id)),
            [.checkedAllocation receipt.message.allocation_id false]⟩ := by
  simp [TapManager.verify_and_store_receipt, h1]

theorem tap_recover_error (env : TapEnv) (ds : Eip712Domain) (receipt : SignedReceipt)
    (e : TapError)
    (h1 : env.is_allocation_eligible receipt.message.allocation_id = true)
    (h2 : env.recover_signer receipt ds = .error e) :
    TapManager.verify_and_store_receipt env ds receipt =
      some ⟨.error (.other (.tapError e)),
            [.checkedAllocation receipt.message.allocation_id true,
             .attemptedRecovery (.error e)]⟩ := by
  simp [TapManager.verify_and_store_receipt, h1, h2]

theorem tap_sender_ineligible (env : TapEnv) (ds : Eip712Domain) (receipt : SignedReceipt)
    (s : List Nat)
    (h1 : env.is_allocation_eligible receipt.message.allocation_id = true)
    (h2 : env.recover_signer receipt ds = .ok s)
    (h3 : env.is_sender_eligible s = false) :
    TapManager.verify_and_store_receipt env ds receipt =
      some ⟨.error (.other (.msg .senderNotEligible s)),
            [.checkedAllocation receipt.message.allocation_id true,
             .attemptedRecovery (.ok s),
             .checkedSender s false]⟩ := by
  simp [TapManager.verify_and_store_receipt, h1, h2, h3]

theorem tap_serde_error (env : TapEnv) (ds : Eip712Domain) (receipt : SignedReceipt)
    (s : List Nat) (e : SerdeError)
    (h1 : env.is_allocation_eligible receipt.message.allocation_id = true)
    (h2 : env.recover_signer receipt ds = .ok s)
    (h3 : env.is_sender_eligible s = true)
    (h4 : env.serde_to_value receipt = .error e) :
    TapManager.verify_and_store_receipt env ds receipt =
      some ⟨.error (.other (.serdeError e)),
            [.checkedAllocation receipt.message.allocation_id true,
             .attemptedRecovery (.ok s),
             .checkedSender s true]⟩ := by
  simp [TapManager.verify_and_store_receipt, h1, h2, h3, h4, strip_debug]

theorem tap_db_error (env : TapEnv) (ds : Eip712Domain) (receipt : SignedReceipt)
    (s : List Nat) (j : Json) (d : DbError)
    (h1 : env.is_allocation_eligible receipt.message.allocation_id = true)
    (h2 : env.recover_signer receipt ds = .ok s)
    (h3 : env.is_sender_eligible s = true)
    (h4 : env.serde_to_value receipt = .ok j)
    (h5 : env.db_insert ⟨toLowerHex receipt.message.allocation_id,
            receipt.message.timestamp_ns, j⟩ = some d) :
    TapManager.verify_and_store_receipt env ds receipt =
      some ⟨.error (.other (.sqlxError d)),
            [.checkedAllocation receipt.message.allocation_id true,
             .attemptedRecovery (.ok s),
             .checkedSender s true]⟩ := by
  simp [TapManager.verify_and_store_receipt, h1, h2, h3, h4, h5, strip_debug]

theorem tap_ok (env : TapEnv) (ds : Eip712Domain) (receipt : SignedReceipt)
    (s : List Nat) (j : Json)
    (h1 : env.is_allocation_eligible receipt.message.allocation_id = true)
    (h2 : env.recover_signer receipt ds = .ok s)
    (h3 : env.is_sender_eligible s = true)
    (h4 : env.serde_to_value receipt = .ok j)
    (h5 : env.db_insert ⟨toLowerHex receipt.message.allocation_id,
            receipt.message.timestamp_ns, j⟩ = none) :
    TapManager.verify_and_store_receipt env ds receipt =
      some ⟨.ok (),
            [.checkedAllocation receipt.message.allocation_id true,
             .attemptedRecovery (.ok s),
             .checkedSender s true,
             .insertedRow ⟨toLowerHex receipt.message.allocation_id,
               receipt.message.timestamp_ns, j⟩,
             .emittedNotification ⟨env.next_row_id,
               toLowerHex receipt.message.allocation_id,
               receipt.message.timestamp_ns⟩]⟩ := by
  simp [TapManager.verify_and_store_receipt, h1, h2, h3, h4, h5, strip_debug,
    notificationOf]

/-! ## Claims about `SignatureVerifier::verify` -/

/-- C1: `verify` never returns `Ok(true)` unless the signature
validates, under the given message's keccak-256 digest, against the
verifier's current `Signer` state: in `Address` state the recovered
key's derived address equals the stored address; in `PublicKey` state
direct ECDSA verification against the cached key succeeds. -/
theorem verify_sound (C : CryptoModel) (st : Signer) (message : List Nat)
    (signature : RecoverableSignature) (st2 : Signer)
    (h : SignatureVerifier.verify C st message signature = some (.ok true, st2)) :
    (∀ pk, st = .publicKey pk →
      C.secpVerify (hashedMessage C message) signature.to_standard pk = true)
    ∧ (∀ addr, st = .address addr →
      ∃ k, C.secpRecover (hashedMessage C message) signature = some k
        ∧ deriveAddress C k = addr) := by
  rw [verify_eq_body] at h
  injection h with h
  constructor
  · rintro pk rfl
    simp only [verifyBody, Prod.mk.injEq] at h
    exact congrArg (fun r => match r with | .ok b => b | .error _ => false) h.1
  · rintro addr rfl
    simp only [verifyBody] at h
    cases hrec : C.secpRecover (hashedMessage C message) signature with
    | none => rw [hrec] at h; simp at h
    | some k =>
        rw [hrec] at h
        by_cases hda : deriveAddress C k = addr
        · exact ⟨k, rfl, hda⟩
        · simp [hda] at h

/-- C1 witness: under `cryptoOkW` with the matching address, `verify`
returns `Ok(true)` and the soundness conclusion holds. -/
theorem verify_sound_witness :
    SignatureVerifier.verify cryptoOkW (.address addrW) [] sigW
        = some (.ok true, .publicKey pkW)
    ∧ (∀ addr, Signer.address addrW = .address addr →
        ∃ k, cryptoOkW.secpRecover (hashedMessage cryptoOkW []) sigW = some k
          ∧ deriveAddress cryptoOkW k = addr) :=
  ⟨rfl, (verify_sound cryptoOkW (.address addrW) [] sigW (.publicKey pkW) rfl).2⟩

/-- C3: for a signature correctly produced over the message by the key
whose derived address is the stored address, `verify` returns `Ok(true)`
both in `Address` state (recovery path, which also performs the cache
upgrade) and in `PublicKey` state holding that key (fast path): the
observable result is identical before and after the upgrade. -/
theorem verify_pre_post_upgrade (C : CryptoModel) (addr : List Nat)
    (message : List Nat) (signature : RecoverableSignature) (k : PublicKey)
    (hrec : C.secpRecover (hashedMessage C message) signature = some k)
    (haddr : deriveAddress C k = addr)
    (hver : C.secpVerify (hashedMessage C message) signature.to_standard k = true) :
    SignatureVerifier.verify C (.address addr) message signature
        = some (.ok true, .publicKey k)
    ∧ SignatureVerifier.verify C (.publicKey k) message signature
        = some (.ok true, .publicKey k) := by
  rw [verify_eq_body, verify_eq_body]
  constructor
  · simp [verifyBody, hrec, haddr]
  · simp [verifyBody, hver]

/-- C3 witness: under `cryptoOkW`, both the recovery path and the fast
path return `Ok(true)` for the same concrete input. -/
theorem verify_pre_post_upgrade_witness :
    cryptoOkW.secpRecover (hashedMessage cryptoOkW []) sigW = some pkW
    ∧ SignatureVerifier.verify cryptoOkW (.address addrW) [] sigW
        = some (.ok true, .publicKey pkW)
    ∧ SignatureVerifier.verify cryptoOkW (.publicKey pkW) [] sigW
        = some (.ok true, .publicKey pkW) :=
  ⟨rfl, (verify_pre_post_upgrade cryptoOkW addrW [] sigW pkW rfl rfl rfl).1,
    (verify_pre_post_upgrade cryptoOkW addrW [] sigW pkW rfl rfl rfl).2⟩

/-- C4: every call to `verify` either leaves the signer state unchanged
or performs the single permitted transition `Address -> PublicKey`, and
that transition happens only when the recovered key's derived address
equals the stored address; in particular a `PublicKey` state is never
changed (never reverts to `Address`). -/
theorem signer_state_monotonic (C : CryptoModel) (st : Signer) (message : List Nat)
    (signature : RecoverableSignature) (out : Except String Bool × Signer)
    (h : SignatureVerifier.verify C st message signature = some out) :
    (∀ pk, st = .publicKey pk → out.2 = st)
    ∧ (out.2 = st ∨ ∃ addr k, st = .address addr ∧ out.2 = .publicKey k
        ∧ C.secpRecover (hashedMessage C message) signature = some k
        ∧ deriveAddress C k = addr) := by
  rw [verify_eq_body] at h
  injection h with h
  constructor
  · rintro pk rfl
    rw [← h]
    simp [verifyBody]
  · cases st with
    | publicKey pk => left; rw [← h]; simp [verifyBody]
    | address addr =>
        cases hrec : C.secpRecover (hashedMessage C message) signature with
        | none => left; rw [← h]; simp [verifyBody, hrec]
        | some k =>
            by_cases hda : deriveAddress C k = addr
            · right
              refine ⟨addr, k, rfl, ?_, rfl, hda⟩
              rw [← h]
              simp [verifyBody, hrec, hda]
            · left
              rw [← h]
              simp [verifyBody, hrec, hda]

/-- C4 witness: in `PublicKey` state the call leaves the state alone. -/
theorem signer_state_monotonic_witness :
    (∀ pk, Signer.publicKey pkW = .publicKey pk →
      ((Except.ok true, Signer.publicKey pkW) : Except String Bool × Signer).2
        = .publicKey pkW)
    ∧ (((Except.ok true, Signer.publicKey pkW) : Except String Bool × Signer).2
          = .publicKey pkW
      ∨ ∃ addr k, Signer.publicKey pkW = .address addr
          ∧ ((Except.ok true, Signer.publicKey pkW) : Except String Bool × Signer).2
              = .publicKey k
          ∧ cryptoOkW.secpRecover (hashedMessage cryptoOkW []) sigW = some k
          ∧ deriveAddress cryptoOkW k = addr) :=
  signer_state_monotonic cryptoOkW (.publicKey pkW) [] sigW (.ok true, .publicKey pkW) rfl

/-- C5: in `Address` state, when recovery succeeds but the recovered
key's derived address differs from the stored address, `verify` returns
`Ok(false)` and the signer state is unchanged (no cache upgrade). -/
theorem no_upgrade_on_address_mismatch (C : CryptoModel) (addr : List Nat)
    (message : List Nat) (signature : RecoverableSignature) (k : PublicKey)
    (hrec : C.secpRecover (hashedMessage C message) signature = some k)
    (hne : deriveAddress C k ≠ addr) :
    SignatureVerifier.verify C (.address addr) message signature
        = some (.ok false, .address addr) := by
  rw [verify_eq_body]
  simp [verifyBody, hrec, hne]

/-- C5 witness: under `cryptoOkW` with a non-matching stored address,
the call returns `Ok(false)` and stays in `Address` state. -/
theorem no_upgrade_on_address_mismatch_witness :
    cryptoOkW.secpRecover (hashedMessage cryptoOkW []) sigW = some pkW
    ∧ deriveAddress cryptoOkW pkW ≠ addrBad
    ∧ SignatureVerifier.verify cryptoOkW (.address addrBad) [] sigW
        = some (.ok false, .address addrBad) :=
  ⟨rfl, by decide,
    no_upgrade_on_address_mismatch cryptoOkW addrBad [] sigW pkW rfl (by decide)⟩

/-- C10: once the signer state is `PublicKey`, `verify` never returns
`Err`: every fast-path outcome is `Ok(true)` or `Ok(false)`.  A
malformed signature (recovery fails, standard verification fails)
yields `Err("Failed to recover signature")` in `Address` state but
`Ok(false)` in `PublicKey` state: the error surface differs before and
after the cache upgrade. -/
theorem fast_path_error_surface (C : CryptoModel) (pk : PublicKey) (addr : List Nat)
    (message : List Nat) (signature : RecoverableSignature)
    (hrec : C.secpRecover (hashedMessage C message) signature = none)
    (hver : C.secpVerify (hashedMessage C message) signature.to_standard pk = false) :
    SignatureVerifier.verify C (.address addr) message signature
        = some (.error recoverFailureMsg, .address addr)
    ∧ SignatureVerifier.verify C (.publicKey pk) message signature
        = some (.ok false, .publicKey pk)
    ∧ ∀ (D : CryptoModel) (q : PublicKey) (m : List Nat) (s : RecoverableSignature),
        ∃ b, SignatureVerifier.verify D (.publicKey q) m s = some (.ok b, .publicKey q) := by
  refine ⟨?_, ?_, ?_⟩
  · rw [verify_eq_body]; simp [verifyBody, hrec]
  · rw [verify_eq_body]; simp [verifyBody, hver]
  · intro D q m s
    exact ⟨D.secpVerify (hashedMessage D m) s.to_standard q, by rw [verify_eq_body]; simp [verifyBody]⟩

/-- C10 witness: under the malformed-signature model `cryptoFailW`, the
`Address` state yields the recovery error while the `PublicKey` state
yields `Ok(false)`. -/
theorem fast_path_error_surface_witness :
    SignatureVerifier.verify cryptoFailW (.address addrW) [] sigW
        = some (.error recoverFailureMsg, .address addrW)
    ∧ SignatureVerifier.verify cryptoFailW (.publicKey pkW) [] sigW
        = some (.ok false, .publicKey pkW) :=
  ⟨(fast_path_error_surface cryptoFailW pkW addrW [] sigW rfl rfl).1,
    (fast_path_error_surface cryptoFailW pkW addrW [] sigW rfl rfl).2.1⟩

/-! ## Claims about `TapManager::verify_and_store_receipt` -/

/-- C2: the storage insert (and its notification) happens iff all three
admission checks pass.  Any failed check yields an error with zero
stored rows and zero notifications; with all checks passed and a
successful serialization and insert, the call succeeds with exactly one
stored row and one notification whose allocation id and timestamp match
the input; a failed insert yields an error with zero rows and zero
notifications. -/
theorem tap_admission (env : TapEnv) (ds : Eip712Domain) (receipt : SignedReceipt)
    (out : TapOutcome)
    (hout : TapManager.verify_and_store_receipt env ds receipt = some out) :
    ((env.is_allocation_eligible receipt.message.allocation_id = false
        ∨ (∃ e, env.recover_signer receipt ds = .error e)
        ∨ (∃ s, env.recover_signer receipt ds = .ok s
            ∧ env.is_sender_eligible s = false)) →
      (∃ e, out.result = .error e) ∧ storedRows out = [] ∧ notificationsOf out = [])
    ∧ (∀ s j, env.is_allocation_eligible receipt.message.allocation_id = true →
        env.recover_signer receipt ds = .ok s →
        env.is_sender_eligible s = true →
        env.serde_to_value receipt = .ok j →
        env.db_insert ⟨toLowerHex receipt.message.allocation_id,
            receipt.message.timestamp_ns, j⟩ = none →
        out.result = .ok ()
        ∧ storedRows out = [⟨toLowerHex receipt.message.allocation_id,
            receipt.message.timestamp_ns, j⟩]
        ∧ notificationsOf out = [⟨env.next_row_id,
            toLowerHex receipt.message.allocation_id,
            receipt.message.timestamp_ns⟩])
    ∧ (∀ s j d, env.is_allocation_eligible receipt.message.allocation_id = true →
        env.recover_signer receipt ds = .ok s →
        env.is_sender_eligible s = true →
        env.serde_to_value receipt = .ok j →
        env.db_insert ⟨toLowerHex receipt.message.allocation_id,
            receipt.message.timestamp_ns, j⟩ = some d →
        (∃ e, out.result = .error e) ∧ storedRows out = []
        ∧ notificationsOf out = []) := by
  refine ⟨?_, ?_, ?_⟩
  · rintro (h1 | ⟨e, h2⟩ | ⟨s, h2, h3⟩)
    · rw [tap_alloc_ineligible env ds receipt h1] at hout
      injection hout with hout
      subst hout
      exact ⟨⟨_, rfl⟩, rfl, rfl⟩
    · cases halloc : env.is_allocation_eligible receipt.message.allocation_id with
      | false =>
          rw [tap_alloc_ineligible env ds receipt halloc] at hout
          injection hout with hout
          subst hout
          exact ⟨⟨_, rfl⟩, rfl, rfl⟩
      | true =>
          rw [tap_recover_error env ds receipt e halloc h2] at hout
          injection hout with hout
          subst hout
          exact ⟨⟨_, rfl⟩, rfl, rfl⟩
    · cases halloc : env.is_allocation_eligible receipt.message.allocation_id with
      | false =>
          rw [tap_alloc_ineligible env ds receipt halloc] at hout
          injection hout with hout
          subst hout
          exact ⟨⟨_, rfl⟩, rfl, rfl⟩
      | true =>
          rw [tap_sender_ineligible env ds receipt s halloc h2 h3] at hout
          injection hout with hout
          subst hout
          exact ⟨⟨_, rfl⟩, rfl, rfl⟩
  · intro s j h1 h2 h3 h4 h5
    rw [tap_ok env ds receipt s j h1 h2 h3 h4 h5] at hout
    injection hout with hout
    subst hout
    exact ⟨rfl, rfl, rfl⟩
  · intro s j d h1 h2 h3 h4 h5
    rw [tap_db_error env ds receipt s j d h1 h2 h3 h4 h5] at hout
    injection hout with hout
    subst hout
    exact ⟨⟨_, rfl⟩, rfl, rfl⟩

/-- C2 witness: a fully eligible receipt under `envAllOk` succeeds with
exactly one stored row and one matching notification. -/
theorem tap_admission_witness :
    TapManager.verify_and_store_receipt envAllOk domW receiptW = some outOkW
    ∧ outOkW.result = .ok ()
    ∧ storedRows outOkW = [rowW]
    ∧ notificationsOf outOkW = [⟨0, rowW.allocation_id, 5⟩] := by
  have h := (tap_admission envAllOk domW receiptW outOkW rfl).2.1 sW jsonW
    rfl rfl rfl rfl rfl
  exact ⟨rfl, h.1, h.2.1, h.2.2⟩

/-- C6: allocation eligibility is consulted before signature recovery,
and recovery before sender eligibility.  An ineligible allocation
returns the allocation-ineligible error with an event trace containing
no recovery attempt and no sender check, whatever the signature; a
recovery attempt only ever follows a positive allocation check; a
sender check only ever follows a successful recovery. -/
theorem tap_checks_ordering (env : TapEnv) (ds : Eip712Domain) (receipt : SignedReceipt)
    (out : TapOutcome)
    (hout : TapManager.verify_and_store_receipt env ds receipt = some out) :
    (env.is_allocation_eligible receipt.message.allocation_id = false →
      out.result = .error (.other (.msg .allocationNotEligible
        receipt.message.allocation_id))
      ∧ out.events = [.checkedAllocation receipt.message.allocation_id false])
    ∧ (∀ r, TapEvent.attemptedRecovery r ∈ out.events →
        TapEvent.checkedAllocation receipt.message.allocation_id true ∈ out.events)
    ∧ (∀ a b, TapEvent.checkedSender a b ∈ out.events →
        ∃ s, env.recover_signer receipt ds = .ok s
          ∧ TapEvent.attemptedRecovery (.ok s) ∈ out.events) := by
  cases halloc : env.is_allocation_eligible receipt.message.allocation_id with
  | false =>
      rw [tap_alloc_ineligible env ds receipt halloc] at hout
      injection hout with hout
      subst hout
      refine ⟨fun _ => ⟨rfl, rfl⟩, ?_, ?_⟩
      · intro r hr
        simp at hr
      · intro a b hab
        simp at hab
  | true =>
      cases hrec : env.recover_signer receipt ds with
      | error e =>
          rw [tap_recover_error env ds receipt e halloc hrec] at hout
          injection hout with hout
          subst hout
          refine ⟨fun h => absurd h (by simp), ?_, ?_⟩
          · intro r _
            simp
          · intro a b hab
            simp at hab
      | ok s =>
          cases hsend : env.is_sender_eligible s with
          | false =>
              rw [tap_sender_ineligible env ds receipt s halloc hrec hsend] at hout
              injection hout with hout
              subst hout
              refine ⟨fun h => absurd h (by simp), ?_, ?_⟩
              · intro r _
                simp
              · intro a b _
                exact ⟨s, rfl, by simp⟩
          | true =>
              cases hserde : env.serde_to_value receipt with
              | error e =>
                  rw [tap_serde_error env ds receipt s e halloc hrec hsend hserde] at hout
                  injection hout with hout
                  subst hout
                  refine ⟨fun h => absurd h (by simp), ?_, ?_⟩
                  · intro r _
                    simp
                  · intro a b _
                    exact ⟨s, rfl, by simp⟩
              | ok j =>
                  cases hdb : env.db_insert ⟨toLowerHex receipt.message.allocation_id,
                      receipt.message.timestamp_ns, j⟩ with
                  | some d =>
                      rw [tap_db_error env ds receipt s j d halloc hrec hsend hserde hdb]
                        at hout
                      injection hout with hout
                      subst hout
                      refine ⟨fun h => absurd h (by simp), ?_, ?_⟩
                      · intro r _
                        simp
                      · intro a b _
                        exact ⟨s, rfl, by simp⟩
                  | none =>
                      rw [tap_ok env ds receipt s j halloc hrec hsend hserde hdb] at hout
                      injection hout with hout
                      subst hout
                      refine ⟨fun h => absurd h (by simp), ?_, ?_⟩
                      · intro r _
                        simp
                      · intro a b _
                        exact ⟨s, rfl, by simp⟩

/-- C6 witness: an ineligible allocation yields the allocation error and
a trace with no recovery attempt, under an environment whose recovery
oracle would succeed. -/
theorem tap_checks_ordering_witness :
    envAllocBad.is_allocation_eligible receiptW.message.allocation_id = false
    ∧ outAllocBadW.result = .error (.other (.msg .allocationNotEligible
        receiptW.message.allocation_id))
    ∧ outAllocBadW.events
        = [.checkedAllocation receiptW.message.allocation_id false] := by
  have h := (tap_checks_ordering envAllocBad domW receiptW outAllocBadW rfl).1 rfl
  exact ⟨rfl, h.1, h.2⟩

/-- C7: a storage-insert failure surfaces as `QueryError::Other` around
a `sqlx::Error` payload, which the caller can discriminate (by `anyhow`
downcast) from the allocation-ineligible and sender-ineligible message
payloads and from the `tap_core` recovery-failure payload: only the
persistence path satisfies `isPersistenceError`. -/
theorem persistence_error_distinct (env : TapEnv) (ds : Eip712Domain)
    (receipt : SignedReceipt) (out : TapOutcome)
    (hout : TapManager.verify_and_store_receipt env ds receipt = some out) :
    (env.is_allocation_eligible receipt.message.allocation_id = false →
      out.result = .error (.other (.msg .allocationNotEligible
        receipt.message.allocation_id))
      ∧ isPersistenceError (.other (.msg .allocationNotEligible
          receipt.message.allocation_id)) = false)
    ∧ (∀ e, env.is_allocation_eligible receipt.message.allocation_id = true →
        env.recover_signer receipt ds = .error e →
        out.result = .error (.other (.tapError e))
        ∧ isPersistenceError (.other (.tapError e)) = false)
    ∧ (∀ s, env.is_allocation_eligible receipt.message.allocation_id = true →
        env.recover_signer receipt ds = .ok s →
        env.is_sender_eligible s = false →
        out.result = .error (.other (.msg .senderNotEligible s))
        ∧ isPersistenceError (.other (.msg .senderNotEligible s)) = false)
    ∧ (∀ s j d, env.is_allocation_eligible receipt.message.allocation_id = true →
        env.recover_signer receipt ds = .ok s →
        env.is_sender_eligible s = true →
        env.serde_to_value receipt = .ok j →
        env.db_insert ⟨toLowerHex receipt.message.allocation_id,
            receipt.message.timestamp_ns, j⟩ = some d →
        out.result = .error (.other (.sqlxError d))
        ∧ isPersistenceError (.other (.sqlxError d)) = true) := by
  refine ⟨?_, ?_, ?_, ?_⟩
  · intro h1
    rw [tap_alloc_ineligible env ds receipt h1] at hout
    injection hout with hout
    subst hout
    exact ⟨rfl, rfl⟩
  · intro e h1 h2
    rw [tap_recover_error env ds receipt e h1 h2] at hout
    injection hout with hout
    subst hout
    exact ⟨rfl, rfl⟩
  · intro s h1 h2 h3
    rw [tap_sender_ineligible env ds receipt s h1 h2 h3] at hout
    injection hout with hout
    subst hout
    exact ⟨rfl, rfl⟩
  · intro s j d h1 h2 h3 h4 h5
    rw [tap_db_error env ds receipt s j d h1 h2 h3 h4 h5] at hout
    injection hout with hout
    subst hout
    exact ⟨rfl, rfl⟩

/-- C7 witness: under `envDbFail` the call surfaces the `sqlx` payload,
the only payload satisfying `isPersistenceError`. -/
theorem persistence_error_distinct_witness :
    outDbFailW.result = .error (.other (.sqlxError ⟨3⟩))
    ∧ isPersistenceError (.other (.sqlxError ⟨3⟩)) = true :=
  (persistence_error_distinct envDbFail domW receiptW outDbFailW rfl).2.2.2
    sW jsonW ⟨3⟩ rfl rfl rfl rfl rfl

/-- C8: every accepted receipt stores exactly one row whose
`allocation_id` is the 20-byte allocation address as lowercase
hexadecimal without the `0x` prefix (40 lowercase hex characters),
whose `timestamp_ns` is the receipt's `u64` timestamp converted
exactly, and whose `receipt` column is the structured (JSON)
serialization of the full signed receipt. -/
theorem stored_row_format (env : TapEnv) (ds : Eip712Domain) (receipt : SignedReceipt)
    (s : List Nat) (j : Json) (out : TapOutcome)
    (hout : TapManager.verify_and_store_receipt env ds receipt = some out)
    (h1 : env.is_allocation_eligible receipt.message.allocation_id = true)
    (h2 : env.recover_signer receipt ds = .ok s)
    (h3 : env.is_sender_eligible s = true)
    (h4 : env.serde_to_value receipt = .ok j)
    (h5 : env.db_insert ⟨toLowerHex receipt.message.allocation_id,
            receipt.message.timestamp_ns, j⟩ = none)
    (hbytes : ∀ b ∈ receipt.message.allocation_id, b < 256)
    (hlen : receipt.message.allocation_id.length = 20) :
    storedRows out = [⟨toLowerHex receipt.message.allocation_id,
        receipt.message.timestamp_ns, j⟩]
    ∧ (∀ c ∈ toLowerHex receipt.message.allocation_id, isLowerHexChar c = true)
    ∧ (toLowerHex receipt.message.allocation_id).length = 40 := by
  rw [tap_ok env ds receipt s j h1 h2 h3 h4 h5] at hout
  injection hout with hout
  subst hout
  refine ⟨rfl, toLowerHex_chars _ hbytes, ?_⟩
  rw [toLowerHex_length, hlen]

/-- C8 witness: the row stored for `receiptW` under `envAllOk` has the
40-character lowercase-hex allocation id, the exact timestamp, and the
serializer's JSON value. -/
theorem stored_row_format_witness :
    storedRows outOkW = [⟨toLowerHex receiptW.message.allocation_id,
        receiptW.message.timestamp_ns, jsonW⟩]
    ∧ (∀ c ∈ toLowerHex receiptW.message.allocation_id, isLowerHexChar c = true)
    ∧ (toLowerHex receiptW.message.allocation_id).length = 40 := by
  have h := stored_row_format envAllOk domW receiptW sW jsonW outOkW
    rfl rfl rfl rfl rfl rfl (by decide) (by decide)
  exact ⟨h.1, h.2.1, h.2.2⟩

/-- C9: neither `verify` nor `verify_and_store_receipt` can panic on
any input: the digest `unwrap` always succeeds (keccak-256 digests are
always 32 bytes), the `strip_prefix("0x").unwrap()` always succeeds
(the Debug rendering of an address always starts with `0x`), and both
embedded functions (where `none` models a panic) always return a
result. -/
theorem no_panics :
    (∀ (C : CryptoModel) (m : List Nat),
        (Message.from_slice (C.keccak m).val).isSome = true)
    ∧ (∀ (C : CryptoModel) (st : Signer) (m : List Nat)
        (sig : RecoverableSignature),
        (SignatureVerifier.verify C st m sig).isSome = true)
    ∧ (∀ a : List Nat, (stripLeading (addressDebugFormat a) rust0x).isSome = true)
    ∧ (∀ (env : TapEnv) (ds : Eip712Domain) (r : SignedReceipt),
        (TapManager.verify_and_store_receipt env ds r).isSome = true) := by
  refine ⟨?_, ?_, ?_, ?_⟩
  · intro C m
    rw [from_slice_keccak]
    rfl
  · intro C st m sig
    rw [verify_eq_body]
    rfl
  · intro a
    rw [strip_debug]
    rfl
  · intro env ds r
    cases halloc : env.is_allocation_eligible r.message.allocation_id with
    | false =>
        rw [tap_alloc_ineligible env ds r halloc]
        rfl
    | true =>
        cases hrec : env.recover_signer r ds with
        | error e =>
            rw [tap_recover_error env ds r e halloc hrec]
            rfl
        | ok s =>
            cases hsend : env.is_sender_eligible s with
            | false =>
                rw [tap_sender_ineligible env ds r s halloc hrec hsend]
                rfl
            | true =>
                cases hserde : env.serde_to_value r with
                | error e =>
                    rw [tap_serde_error env ds r s e halloc hrec hsend hserde]
                    rfl
                | ok j =>
                    cases hdb : env.db_insert ⟨toLowerHex r.message.allocation_id,
                        r.message.timestamp_ns, j⟩ with
                    | some d =>
                        rw [tap_db_error env ds r s j d halloc hrec hsend hserde hdb]
                        rfl
                    | none =>
                        rw [tap_ok env ds r s j halloc hrec hsend hserde hdb]
                        rfl
